import Mathlib

/-!
Verification of the Book Management System (FastAPI + SQLAlchemy, `main.py`).

The persisted state is a single `books` table (SQLAlchemy model `Book`,
MySQL backend).  We embed it as a list of rows plus the autoincrement
counter for the primary key.  The five route handlers are embedded as pure
state-passing functions; Python exceptions (`HTTPException`, the MySQL
integrity error raised on a violated UNIQUE constraint at commit) become
constructors of the result type `Res`.  Pydantic validation of request
bodies becomes an explicit parsing function from raw JSON-like bodies.
-/

namespace BookMgmt

/-- One row of the `books` table (SQLAlchemy model `Book`, main.py lines
23-33): integer primary key `id` plus five data columns, all NOT NULL. -/
structure Book where
  id : Int
  title : String
  author : String
  published_year : Int
  genre : String
  isbn : String
deriving DecidableEq, Repr

/-- Pydantic input schema `BookCreate` (main.py lines 51-59): the five data
fields, no `id`. -/
structure BookCreate where
  title : String
  author : String
  published_year : Int
  genre : String
  isbn : String
deriving DecidableEq, Repr

/-- The persisted database state: the rows of the `books` table, in storage
order, together with the next value of the autoincrement primary key. -/
structure DB where
  books : List Book
  nextId : Int
deriving DecidableEq, Repr

/-- Outcome of a route handler.  `ok` is an HTTP 200 response;
`httpError` is a raised `HTTPException` with status code and detail;
`validationError` is the client-error response FastAPI/pydantic produces
when the request body does not match the input schema (the handler body is
never entered); `dbError` is an unhandled storage-layer exception (e.g. the
MySQL IntegrityError on a violated UNIQUE constraint) propagating out of
the handler as a server error. -/
inductive Res (α : Type) where
  | ok (a : α)
  | httpError (status : Nat) (detail : String)
  | validationError
  | dbError (msg : String)
deriving DecidableEq, Repr

/-- Whether a result is a 200 success. -/
def Res.isOk {α : Type} : Res α → Bool
  | Res.ok _ => true
  | _ => false

/-- Map over the payload of a successful result. -/
def Res.map {α β : Type} (f : α → β) : Res α → Res β
  | Res.ok a => Res.ok (f a)
  | Res.httpError s d => Res.httpError s d
  | Res.validationError => Res.validationError
  | Res.dbError m => Res.dbError m

/-- `db.query(Book).filter(Book.id == book_id).first()` (main.py lines 92,
124, 146): the first stored row whose `id` equals `book_id`, if any. -/
def DB.findById (db : DB) (book_id : Int) : Option Book :=
  (db.books.filter (fun b => b.id == book_id)).head?

/-- Building the ORM row from a validated input body: field-by-field copy
of the five data fields, with the given primary key (main.py lines 104-110
for create, lines 128-132 for update). -/
def Book.fromCreate (i : Int) (bc : BookCreate) : Book :=
  { id := i, title := bc.title, author := bc.author,
    published_year := bc.published_year, genre := bc.genre, isbn := bc.isbn }

/-- `GET /books` (main.py lines 76-83): return all rows. -/
def get_books (db : DB) : Res (List Book) × DB :=
  (Res.ok db.books, db)

/-- `GET /books/{book_id}` (main.py lines 85-95): look the row up by id;
404 with detail "Book not found" if absent. -/
def get_book (book_id : Int) (db : DB) : Res Book × DB :=
  match db.findById book_id with
  | none => (Res.httpError 404 "Book not found", db)
  | some book => (Res.ok book, db)

/-- `POST /books` (main.py lines 97-114): build the row with the next
autoincrement id, `db.add`, `db.commit`.  The handler performs no isbn
check of its own; at commit the storage engine enforces the UNIQUE
constraint on `isbn` (main.py line 33), so a colliding insert raises an
unhandled IntegrityError and persists nothing. -/
def create_book (book : BookCreate) (db : DB) : Res Book × DB :=
  let db_book := Book.fromCreate db.nextId book
  if db.books.any (fun b => b.isbn == book.isbn) then
    (Res.dbError "IntegrityError", db)
  else
    (Res.ok db_book, { books := db.books ++ [db_book], nextId := db.nextId + 1 })

/-- `PUT /books/{book_id}` (main.py lines 116-136): look the row up by id
(404 if absent), overwrite all five data fields, `db.commit`.  The handler
performs no isbn check of its own; at commit the storage engine enforces
the UNIQUE constraint on `isbn` against the other rows (main.py line 33),
so a colliding update raises an unhandled IntegrityError and persists
nothing. -/
def update_book (book_id : Int) (updated_book : BookCreate) (db : DB) :
    Res Book × DB :=
  match db.findById book_id with
  | none => (Res.httpError 404 "Book not found", db)
  | some db_book =>
    let newRec := Book.fromCreate db_book.id updated_book
    if db.books.any (fun b => !(b.id == db_book.id) && b.isbn == updated_book.isbn) then
      (Res.dbError "IntegrityError", db)
    else
      (Res.ok newRec,
        { db with books := db.books.map (fun b => if b.id == db_book.id then newRec else b) })

/-- `DELETE /books/{book_id}` (main.py lines 138-152): look the row up by
id (404 if absent), `db.delete` the row, `db.commit`, and return the
confirmation message containing the id. -/
def delete_book (book_id : Int) (db : DB) : Res String × DB :=
  match db.findById book_id with
  | none => (Res.httpError 404 "Book not found", db)
  | some db_book =>
    (Res.ok ("Book with ID " ++ toString book_id ++ " deleted"),
      { db with books := db.books.filter (fun b => !(b.id == db_book.id)) })

/-- A JSON primitive value as it can appear in a request-body field. -/
inductive JVal where
  | jstr (s : String)
  | jint (n : Int)
  | jnull
deriving DecidableEq, Repr

/-- A raw request body for `POST /books` / `PUT /books/{id}`: each of the
five fields either absent or some JSON primitive. -/
structure RawBody where
  title : Option JVal
  author : Option JVal
  published_year : Option JVal
  genre : Option JVal
  isbn : Option JVal
deriving DecidableEq, Repr

/-- A field value acceptable for a pydantic `str` field: present and a
string. -/
def asStr : Option JVal → Option String
  | some (JVal.jstr s) => some s
  | _ => none

/-- A field value acceptable for a pydantic `int` field: present and an
integer. -/
def asInt : Option JVal → Option Int
  | some (JVal.jint n) => some n
  | _ => none

/-- Pydantic validation of a request body against `BookCreate` (main.py
lines 51-59): every field must be present with its declared primitive type;
no further constraint (no isbn length or checksum, no year range, empty
strings allowed). -/
def BookCreate.validate (r : RawBody) : Option BookCreate := do
  let t ← asStr r.title
  let a ← asStr r.author
  let y ← asInt r.published_year
  let g ← asStr r.genre
  let i ← asStr r.isbn
  pure { title := t, author := a, published_year := y, genre := g, isbn := i }

/-- The `POST /books` route as seen from the wire: FastAPI validates the
body against `BookCreate` before the handler runs; on failure the handler
is never entered and the state is untouched. -/
def post_books (body : RawBody) (db : DB) : Res Book × DB :=
  match BookCreate.validate body with
  | none => (Res.validationError, db)
  | some book => create_book book db

/-- The `PUT /books/{book_id}` route as seen from the wire: FastAPI
validates the body against `BookCreate` before the handler runs; on failure
the handler is never entered and the state is untouched. -/
def put_books (book_id : Int) (body : RawBody) (db : DB) : Res Book × DB :=
  match BookCreate.validate body with
  | none => (Res.validationError, db)
  | some book => update_book book_id book db

/-- One incoming HTTP request to any of the five routes. -/
inductive Request where
  | getAll
  | getOne (book_id : Int)
  | post (body : RawBody)
  | put (book_id : Int) (body : RawBody)
  | del (book_id : Int)
deriving DecidableEq, Repr

/-- A response payload from any of the five routes. -/
inductive Response where
  | bookList (bs : List Book)
  | bookItem (b : Book)
  | message (m : String)
deriving DecidableEq, Repr

/-- Dispatch of one request to its route handler (validation included),
uniformly typed. -/
def handle (req : Request) (db : DB) : Res Response × DB :=
  match req with
  | Request.getAll =>
    let (r, db') := get_books db
    (r.map Response.bookList, db')
  | Request.getOne book_id =>
    let (r, db') := get_book book_id db
    (r.map Response.bookItem, db')
  | Request.post body =>
    let (r, db') := post_books body db
    (r.map Response.bookItem, db')
  | Request.put book_id body =>
    let (r, db') := put_books book_id body db
    (r.map Response.bookItem, db')
  | Request.del book_id =>
    let (r, db') := delete_book book_id db
    (r.map Response.message, db')

/-- Count of session opens and closes during one request. -/
structure SessionLog where
  openCount : Nat
  closeCount : Nat
deriving DecidableEq, Repr

/-- One full request through the `get_db` dependency (main.py lines 39-48):
`db = SessionLocal()` opens the session, the handler runs with it, and the
`try`/`finally` closes it on every exit path.  In the embedding every
Python exception is a `Res` constructor, so the `finally` branch is written
out for each possible outcome, mirroring that the close runs whether the
handler returned normally, raised `HTTPException`, was preempted by a
validation error, or let a storage error propagate. -/
def runRequest (req : Request) (db : DB) : (Res Response × DB) × SessionLog :=
  let opened : SessionLog := { openCount := 1, closeCount := 0 }
  let (out, db') := handle req db
  match out with
  | Res.ok a =>
    ((Res.ok a, db'), { opened with closeCount := opened.closeCount + 1 })
  | Res.httpError s d =>
    ((Res.httpError s d, db'), { opened with closeCount := opened.closeCount + 1 })
  | Res.validationError =>
    ((Res.validationError, db'), { opened with closeCount := opened.closeCount + 1 })
  | Res.dbError m =>
    ((Res.dbError m, db'), { opened with closeCount := opened.closeCount + 1 })

/-- Well-formedness of a database state, as the storage engine maintains
it: primary keys are pairwise distinct, and every assigned primary key is
below the autoincrement counter. -/
def WF (db : DB) : Prop :=
  (db.books.map Book.id).Nodup ∧ ∀ b ∈ db.books, b.id < db.nextId

instance : DecidablePred WF := fun db => by
  unfold WF; infer_instance

/-! Concrete fixtures used by witnesses and counterexamples. -/

/-- The empty table, autoincrement at 1 (a fresh MySQL table). -/
def emptyDB : DB := { books := [], nextId := 1 }

/-- A first stored book. -/
def bkA : Book :=
  { id := 1, title := "A", author := "B", published_year := 2000,
    genre := "Fiction", isbn := "1111111111111" }

/-- A second stored book with a different isbn. -/
def bkB : Book :=
  { id := 2, title := "C", author := "D", published_year := 2001,
    genre := "Drama", isbn := "2222222222222" }

/-- A state holding the two books above. -/
def twoBookDB : DB := { books := [bkA, bkB], nextId := 3 }

/-- An input body for creating `bkA`. -/
def bcA : BookCreate :=
  { title := "A", author := "B", published_year := 2000,
    genre := "Fiction", isbn := "1111111111111" }

/-- An update body whose isbn collides with `bkB`. -/
def updToDupIsbn : BookCreate :=
  { title := "A2", author := "B2", published_year := 2002,
    genre := "Fiction", isbn := "2222222222222" }

/-- An update body with a fresh isbn. -/
def updFresh : BookCreate :=
  { title := "A2", author := "B2", published_year := 2002,
    genre := "Drama", isbn := "3333333333333" }

/-- An input body whose isbn duplicates `bkA`. -/
def dupIsbnCreate : BookCreate :=
  { title := "X", author := "Y", published_year := 1999,
    genre := "Z", isbn := "1111111111111" }

/-- A raw request body whose title and author are the empty string. -/
def emptyTitleBody : RawBody :=
  { title := some (JVal.jstr ""), author := some (JVal.jstr ""),
    published_year := some (JVal.jint 2000), genre := some (JVal.jstr "Fiction"),
    isbn := some (JVal.jstr "1111111111111") }

/-- A raw request body missing its title field. -/
def noTitleBody : RawBody :=
  { title := none, author := some (JVal.jstr "B"),
    published_year := some (JVal.jint 2000), genre := some (JVal.jstr "Fiction"),
    isbn := some (JVal.jstr "1111111111111") }

/-! Helper lemmas about the lookup `DB.findById`. -/

theorem findById_none_iff (db : DB) (i : Int) :
    db.findById i = none ↔ ∀ b ∈ db.books, b.id ≠ i := by
  simp [DB.findById, List.head?_eq_none_iff, List.filter_eq_nil_iff]

theorem findById_some (db : DB) (i : Int) (b : Book)
    (h : db.findById i = some b) : b ∈ db.books ∧ b.id = i := by
  unfold DB.findById at h
  rcases hf : db.books.filter (fun x => x.id == i) with _ | ⟨x, xs⟩
  · rw [hf] at h; exact absurd h (by simp)
  · rw [hf] at h
    simp only [List.head?_cons, Option.some.injEq] at h
    rw [← h]
    have hx : x ∈ db.books.filter (fun y => y.id == i) := by
      rw [hf]; exact List.mem_cons_self _ _
    have hx' := List.mem_filter.mp hx
    exact ⟨hx'.1, by simpa using hx'.2⟩

theorem filter_id_of_nodup (l : List Book) (hnd : (l.map Book.id).Nodup)
    (b : Book) (hb : b ∈ l) :
    l.filter (fun x => x.id == b.id) = [b] := by
  induction l with
  | nil => cases hb
  | cons a t ih =>
    rw [List.map_cons, List.nodup_cons] at hnd
    rcases List.mem_cons.mp hb with rfl | hbt
    · rw [List.filter_cons_of_pos (by simp)]
      have ht : t.filter (fun x => x.id == b.id) = [] := by
        rw [List.filter_eq_nil_iff]
        intro x hx hxe
        exact hnd.1 (by
          have hxb : x.id = b.id := by simpa using hxe
          exact hxb ▸ List.mem_map_of_mem Book.id hx)
      rw [ht]
    · have hne : a.id ≠ b.id := by
        intro he
        exact hnd.1 (he ▸ List.mem_map_of_mem Book.id hbt)
      rw [List.filter_cons_of_neg (by simp [hne])]
      exact ih hnd.2 hbt

theorem findById_of_mem (db : DB) (hwf : WF db) (b : Book) (hb : b ∈ db.books) :
    db.findById b.id = some b := by
  unfold DB.findById
  rw [filter_id_of_nodup db.books hwf.1 b hb]
  rfl

theorem asStr_eq_some {o : Option JVal} {s : String} (h : asStr o = some s) :
    o = some (JVal.jstr s) := by
  rcases o with _ | v
  · simp [asStr] at h
  · rcases v with t | n | _
    · simp [asStr] at h; rw [h]
    · simp [asStr] at h
    · simp [asStr] at h

theorem asInt_eq_some {o : Option JVal} {n : Int} (h : asInt o = some n) :
    o = some (JVal.jint n) := by
  rcases o with _ | v
  · simp [asInt] at h
  · rcases v with t | m | _
    · simp [asInt] at h
    · simp [asInt] at h; rw [h]
    · simp [asInt] at h

theorem validate_some {r : RawBody} {bc : BookCreate}
    (h : BookCreate.validate r = some bc) :
    r.title = some (JVal.jstr bc.title) ∧ r.author = some (JVal.jstr bc.author) ∧
    r.published_year = some (JVal.jint bc.published_year) ∧
    r.genre = some (JVal.jstr bc.genre) ∧ r.isbn = some (JVal.jstr bc.isbn) := by
  unfold BookCreate.validate at h
  rcases ht : asStr r.title with _ | t <;> rw [ht] at h <;> simp at h
  rcases ha : asStr r.author with _ | a <;> rw [ha] at h <;> simp at h
  rcases hy : asInt r.published_year with _ | y <;> rw [hy] at h <;> simp at h
  rcases hg : asStr r.genre with _ | g <;> rw [hg] at h <;> simp at h
  rcases hi : asStr r.isbn with _ | i <;> rw [hi] at h <;> simp at h
  rw [← h]
  exact ⟨asStr_eq_some ht, asStr_eq_some ha, asInt_eq_some hy,
    asStr_eq_some hg, asStr_eq_some hi⟩

/-! The claims. -/

/-- Claim C1: for every valid input shape, `POST /books` (when the isbn is
fresh, so that the storage insert succeeds) returns an object carrying the
same five fields plus the system-assigned id, and a subsequent
`GET /books/{id}` on that id returns exactly the object the create
returned. -/
theorem c1_create_then_get (book : BookCreate) (db : DB) (hwf : WF db)
    (hisbn : ∀ b ∈ db.books, b.isbn ≠ book.isbn) :
    ∃ nb : Book,
      create_book book db =
        (Res.ok nb, { books := db.books ++ [nb], nextId := db.nextId + 1 }) ∧
      nb.id = db.nextId ∧
      nb.title = book.title ∧ nb.author = book.author ∧
      nb.published_year = book.published_year ∧ nb.genre = book.genre ∧
      nb.isbn = book.isbn ∧
      get_book nb.id (create_book book db).2 =
        (Res.ok nb, (create_book book db).2) := by
  have hany : db.books.any (fun b => b.isbn == book.isbn) = false := by
    simp only [List.any_eq_false]
    intro b hb
    simpa using hisbn b hb
  have hc : create_book book db =
      (Res.ok (Book.fromCreate db.nextId book),
        { books := db.books ++ [Book.fromCreate db.nextId book],
          nextId := db.nextId + 1 }) := by
    simp [create_book, hany]
  refine ⟨Book.fromCreate db.nextId book, hc, rfl, rfl, rfl, rfl, rfl, rfl, ?_⟩
  rw [hc]
  have hfind : DB.findById
      { books := db.books ++ [Book.fromCreate db.nextId book],
        nextId := db.nextId + 1 } (Book.fromCreate db.nextId book).id =
      some (Book.fromCreate db.nextId book) := by
    unfold DB.findById
    dsimp only
    rw [List.filter_append]
    have h1 : db.books.filter
        (fun b => b.id == (Book.fromCreate db.nextId book).id) = [] := by
      rw [List.filter_eq_nil_iff]
      intro x hx hxe
      have hxid : x.id = db.nextId := by simpa [Book.fromCreate] using hxe
      exact absurd hxid (Int.ne_of_lt (hwf.2 x hx))
    rw [h1]
    simp [Book.fromCreate]
  simp [get_book, hfind]

/-- Claim C5: isbn values are unique across stored books: inserting a
second book with an isbn already stored fails (the UNIQUE constraint
rejects the commit, surfacing as an unhandled storage error), the state is
unchanged, and the first book remains retrievable with all its fields
unchanged. -/
theorem c5_isbn_unique (db : DB) (b1 : Book) (book2 : BookCreate)
    (hwf : WF db) (hmem : b1 ∈ db.books) (hdup : book2.isbn = b1.isbn) :
    create_book book2 db = (Res.dbError "IntegrityError", db) ∧
    get_book b1.id db = (Res.ok b1, db) := by
  have hany : db.books.any (fun b => b.isbn == book2.isbn) = true := by
    rw [List.any_eq_true]
    exact ⟨b1, hmem, by simp [hdup]⟩
  constructor
  · simp [create_book, hany]
  · simp [get_book, findById_of_mem db hwf b1 hmem]

/-- Claim C10: `PUT /books/{book_id}` performs no isbn-duplicate check of
its own: updating one stored book's isbn to another stored book's isbn is
rejected by the storage uniqueness constraint at commit and propagates as
an unhandled server error — not a 404 or 409 — with the stored state
unchanged. -/
theorem c10_put_isbn_collision (db : DB) (b1 b2 : Book) (nb : BookCreate)
    (hwf : WF db) (h1 : b1 ∈ db.books) (h2 : b2 ∈ db.books)
    (hne : b1.id ≠ b2.id) (hisbn : nb.isbn = b2.isbn) :
    update_book b1.id nb db = (Res.dbError "IntegrityError", db) := by
  have hfind := findById_of_mem db hwf b1 h1
  have hne' : b2.id ≠ b1.id := Ne.symm hne
  have hany : db.books.any
      (fun b => !(b.id == b1.id) && b.isbn == nb.isbn) = true := by
    rw [List.any_eq_true]
    exact ⟨b2, h2, by simp [hisbn, hne']⟩
  simp [update_book, hfind, hany]

/-- Claim C2: for every id, `GET /books/{book_id}` returns 200 with the
matching record exactly when a record with that id exists, and 404 with
detail "Book not found" exactly when none exists; no other outcome is
possible. -/
theorem c2_get_raises_iff_absent (book_id : Int) (db : DB) :
    (∃ b, b ∈ db.books ∧ b.id = book_id ∧ get_book book_id db = (Res.ok b, db))
    ∨ ((∀ b ∈ db.books, b.id ≠ book_id) ∧
        get_book book_id db = (Res.httpError 404 "Book not found", db)) := by
  rcases h : db.findById book_id with _ | b
  · right
    exact ⟨(findById_none_iff db book_id).mp h, by simp [get_book, h]⟩
  · left
    obtain ⟨hm, hid⟩ := findById_some db book_id b h
    exact ⟨b, hm, hid, by simp [get_book, h]⟩

/-- Claim C3 counterexample: id 1 exists in `twoBookDB` and `updToDupIsbn`
is a valid input shape, yet `PUT /books/1` does not return 200 with the
updated object: the storage uniqueness constraint on isbn rejects the
write and the unhandled error propagates, with the state unchanged. -/
theorem c3_counterexample :
    (∃ b ∈ twoBookDB.books, b.id = 1) ∧
    (update_book 1 updToDupIsbn twoBookDB).1.isOk = false ∧
    update_book 1 updToDupIsbn twoBookDB =
      (Res.dbError "IntegrityError", twoBookDB) := by
  decide

/-- Claim C3 (amended): for every existing id and every valid input shape
whose isbn does not collide with a different stored row, PUT overwrites
all five fields of the matching record together, returns 200 with the
updated output shape (id preserved), and a subsequent GET of that id
returns exactly the new fields, never a mix; if the id does not exist,
PUT returns 404 instead. -/
theorem c3_put_full_replacement (book_id : Int) (nb : BookCreate) (db : DB)
    (hwf : WF db) :
    ((∀ b ∈ db.books, b.id ≠ book_id) →
      update_book book_id nb db = (Res.httpError 404 "Book not found", db)) ∧
    (∀ old, old ∈ db.books → old.id = book_id →
      (∀ b ∈ db.books, b.id ≠ book_id → b.isbn ≠ nb.isbn) →
      (Book.fromCreate book_id nb).title = nb.title ∧
      (Book.fromCreate book_id nb).author = nb.author ∧
      (Book.fromCreate book_id nb).published_year = nb.published_year ∧
      (Book.fromCreate book_id nb).genre = nb.genre ∧
      (Book.fromCreate book_id nb).isbn = nb.isbn ∧
      (update_book book_id nb db).1 = Res.ok (Book.fromCreate book_id nb) ∧
      get_book book_id (update_book book_id nb db).2 =
        (Res.ok (Book.fromCreate book_id nb), (update_book book_id nb db).2)) := by
  constructor
  · intro habs
    have hnone : db.findById book_id = none :=
      (findById_none_iff db book_id).mpr habs
    simp [update_book, hnone]
  · intro old hmem hid hcol
    subst hid
    have hfind : db.findById old.id = some old := findById_of_mem db hwf old hmem
    have hany : db.books.any
        (fun b => !(b.id == old.id) && b.isbn == nb.isbn) = false := by
      simp only [List.any_eq_false]
      intro b hb
      by_cases hbid : b.id = old.id
      · simp [hbid]
      · simp [hbid, hcol b hb hbid]
    have hupd : update_book old.id nb db =
        (Res.ok (Book.fromCreate old.id nb),
          { db with books := db.books.map (fun b => if b.id == old.id then Book.fromCreate old.id nb else b) }) := by
      simp [update_book, hfind, hany]
    refine ⟨rfl, rfl, rfl, rfl, rfl, by rw [hupd], ?_⟩
    have hpf : ((fun x : Book => x.id == old.id) ∘
        (fun b => if b.id == old.id then Book.fromCreate old.id nb else b)) =
        (fun x : Book => x.id == old.id) := by
      funext x
      by_cases hx : x.id = old.id
      · simp [Function.comp, hx, Book.fromCreate]
      · simp [Function.comp, hx]
    have hfind2 : DB.findById
        { db with books := db.books.map (fun b => if b.id == old.id then Book.fromCreate old.id nb else b) }
        old.id = some (Book.fromCreate old.id nb) := by
      unfold DB.findById
      dsimp only
      rw [List.filter_map, hpf, filter_id_of_nodup db.books hwf.1 old hmem]
      simp [Book.fromCreate]
    have h2 : (update_book old.id nb db).2 =
        { db with books := db.books.map (fun b => if b.id == old.id then Book.fromCreate old.id nb else b) } := by
      rw [hupd]
    rw [h2]
    unfold get_book
    rw [hfind2]

/-- Claim C4: deleting an existing id removes the matching record and
returns 200 with the confirmation message containing that id; a subsequent
GET of that id returns 404, and a repeated DELETE of the same id also
returns 404 rather than crashing. -/
theorem c4_delete_then_gone (book_id : Int) (db : DB)
    (hex : ∃ b ∈ db.books, b.id = book_id) :
    ∃ db' : DB,
      delete_book book_id db =
        (Res.ok ("Book with ID " ++ toString book_id ++ " deleted"), db') ∧
      (∀ b ∈ db'.books, b.id ≠ book_id) ∧
      get_book book_id db' = (Res.httpError 404 "Book not found", db') ∧
      delete_book book_id db' = (Res.httpError 404 "Book not found", db') := by
  obtain ⟨b0, hb0, hid0⟩ := hex
  have hsome : ∃ x, db.findById book_id = some x := by
    rcases h : db.findById book_id with _ | x
    · exact absurd hid0 ((findById_none_iff db book_id).mp h b0 hb0)
    · exact ⟨x, rfl⟩
  obtain ⟨x, hx⟩ := hsome
  obtain ⟨hxm, hxid⟩ := findById_some db book_id x hx
  have habs : ∀ b ∈ db.books.filter (fun b => !(b.id == x.id)),
      b.id ≠ book_id := by
    intro b hb
    have h2 := (List.mem_filter.mp hb).2
    rw [hxid] at h2
    simpa using h2
  have hnone : DB.findById
      { db with books := db.books.filter (fun b => !(b.id == x.id)) }
      book_id = none := by
    rw [findById_none_iff]
    intro b hb
    exact habs b hb
  refine ⟨{ db with books := db.books.filter (fun b => !(b.id == x.id)) },
    by simp [delete_book, hx], habs,
    by simp [get_book, hnone], by simp [delete_book, hnone]⟩

/-- Claim C6 counterexample: a POST whose title and author are the empty
string passes validation and stores a record with empty title and author,
so non-emptiness of title and author is not enforced anywhere. -/
theorem c6_counterexample :
    (post_books emptyTitleBody emptyDB).1.isOk = true ∧
    ∃ b ∈ (post_books emptyTitleBody emptyDB).2.books,
      b.title = "" ∧ b.author = "" := by
  decide

/-- Claim C6 (amended): title and author are required fields of text type
— a body lacking either as text is rejected with no state change — and a
record stored by a successful POST carries exactly the text the client
supplied, which may be the empty string; non-emptiness is not enforced. -/
theorem c6_title_author_present_text (r : RawBody) (db : DB) (book_id : Int) :
    ((asStr r.title = none ∨ asStr r.author = none) →
      post_books r db = (Res.validationError, db) ∧
      put_books book_id r db = (Res.validationError, db)) ∧
    (∀ b : Book, ∀ db' : DB, post_books r db = (Res.ok b, db') →
      r.title = some (JVal.jstr b.title) ∧
      r.author = some (JVal.jstr b.author)) := by
  constructor
  · intro h
    have hv : BookCreate.validate r = none := by
      unfold BookCreate.validate
      rcases h with h | h
      · simp [h]
      · rcases ht : asStr r.title with _ | t
        · simp [ht]
        · simp [ht, h]
    exact ⟨by simp [post_books, hv], by simp [put_books, hv]⟩
  · intro b db' hpost
    unfold post_books at hpost
    rcases hv : BookCreate.validate r with _ | bc <;> rw [hv] at hpost
    · simp at hpost
    · obtain ⟨hts, has, _, _, _⟩ := validate_some hv
      by_cases hany : db.books.any (fun x => x.isbn == bc.isbn) = true
      · simp [create_book, hany] at hpost
      · simp [create_book, hany] at hpost
        rw [← hpost.1]
        exact ⟨hts, has⟩

/-- Claim C7: a request body missing a required field or carrying a wrong
primitive type is rejected with a client-error response before any
persistence call, on both POST and PUT, with the stored state untouched;
conversely no business-rule validation is performed: every body with all
five fields of the right primitive types passes the validator. -/
theorem c7_shape_validation (r : RawBody) (book_id : Int) (db : DB) :
    (BookCreate.validate r = none →
      post_books r db = (Res.validationError, db) ∧
      put_books book_id r db = (Res.validationError, db)) ∧
    ((BookCreate.validate r).isSome ↔
      (asStr r.title).isSome ∧ (asStr r.author).isSome ∧
      (asInt r.published_year).isSome ∧ (asStr r.genre).isSome ∧
      (asStr r.isbn).isSome) := by
  constructor
  · intro h
    exact ⟨by simp [post_books, h], by simp [put_books, h]⟩
  · unfold BookCreate.validate
    rcases ht : asStr r.title with _ | t
    · simp [ht]
    · rcases ha : asStr r.author with _ | a
      · simp [ht, ha]
      · rcases hy : asInt r.published_year with _ | y
        · simp [ht, ha, hy]
        · rcases hg : asStr r.genre with _ | g
          · simp [ht, ha, hy, hg]
          · rcases hi : asStr r.isbn with _ | i
            · simp [ht, ha, hy, hg, hi]
            · simp [ht, ha, hy, hg, hi]

/-- Claim C9: every write operation touches only its target row: POST
leaves all previously stored records present and unchanged; PUT and DELETE
of an id leave every record with a different id present and unchanged; and
a PUT or DELETE that answers 404 leaves the entire state unchanged. -/
theorem c9_frame (db : DB) (book : BookCreate) (book_id : Int) (nb : BookCreate) :
    (∀ b ∈ db.books, b ∈ (create_book book db).2.books) ∧
    (∀ b ∈ db.books, b.id ≠ book_id → b ∈ (update_book book_id nb db).2.books) ∧
    (∀ b ∈ db.books, b.id ≠ book_id → b ∈ (delete_book book_id db).2.books) ∧
    ((∀ b ∈ db.books, b.id ≠ book_id) →
      update_book book_id nb db = (Res.httpError 404 "Book not found", db) ∧
      delete_book book_id db = (Res.httpError 404 "Book not found", db)) := by
  refine ⟨?_, ?_, ?_, ?_⟩
  · intro b hb
    by_cases hany : db.books.any (fun x => x.isbn == book.isbn) = true
    · simpa [create_book, hany] using hb
    · simp [create_book, hany]
      exact Or.inl hb
  · intro b hb hbid
    rcases hf : db.findById book_id with _ | x
    · simpa [update_book, hf] using hb
    · obtain ⟨hxm, hxid⟩ := findById_some db book_id x hf
      by_cases hany : db.books.any
          (fun c => !(c.id == x.id) && c.isbn == nb.isbn) = true
      · simpa [update_book, hf, hany] using hb
      · have hbx : (b.id == x.id) = false := by
          rw [hxid]; simpa using hbid
        have hmm := List.mem_map_of_mem
          (fun c : Book => if c.id == x.id then Book.fromCreate x.id nb else c) hb
        simp [update_book, hf, hany]
        simpa [hbx] using hmm
  · intro b hb hbid
    rcases hf : db.findById book_id with _ | x
    · simpa [delete_book, hf] using hb
    · obtain ⟨hxm, hxid⟩ := findById_some db book_id x hf
      have hbx : (b.id == x.id) = false := by
        rw [hxid]; simpa using hbid
      have hmf : b ∈ db.books.filter (fun c => !(c.id == x.id)) :=
        List.mem_filter.mpr ⟨hb, by simp [hbx]⟩
      simpa [delete_book, hf] using hmf
  · intro habs
    have hnone : db.findById book_id = none :=
      (findById_none_iff db book_id).mpr habs
    exact ⟨by simp [update_book, hnone], by simp [delete_book, hnone]⟩

/-- Claim C8: for every request to any of the five routes and every
database state, the session opened at request start is closed on every
exit path: the session log of the request records exactly one open and
exactly one close. -/
theorem c8_session_always_closed (req : Request) (db : DB) :
    (runRequest req db).2.openCount = 1 ∧ (runRequest req db).2.closeCount = 1 := by
  unfold runRequest
  rcases h : handle req db with ⟨out, db'⟩
  cases out <;> simp [h]

/-! Witnesses: each applies its claim theorem at a concrete input,
discharging every hypothesis there. -/

/-- Witness for C1: creating `bcA` in the empty database and fetching it
back. -/
theorem c1_create_then_get_witness :
    WF emptyDB ∧ (∀ b ∈ emptyDB.books, b.isbn ≠ bcA.isbn) ∧
    (∃ nb : Book,
      create_book bcA emptyDB =
        (Res.ok nb, { books := emptyDB.books ++ [nb], nextId := emptyDB.nextId + 1 }) ∧
      nb.id = emptyDB.nextId ∧
      nb.title = bcA.title ∧ nb.author = bcA.author ∧
      nb.published_year = bcA.published_year ∧ nb.genre = bcA.genre ∧
      nb.isbn = bcA.isbn ∧
      get_book nb.id (create_book bcA emptyDB).2 =
        (Res.ok nb, (create_book bcA emptyDB).2)) :=
  ⟨by decide, by decide, c1_create_then_get bcA emptyDB (by decide) (by decide)⟩

/-- Witness for C3 (amended): updating book 1 of `twoBookDB` with the
non-colliding body `updFresh` succeeds and the GET sees the new fields. -/
theorem c3_put_full_replacement_witness :
    WF twoBookDB ∧ bkA ∈ twoBookDB.books ∧ bkA.id = 1 ∧
    (∀ b ∈ twoBookDB.books, b.id ≠ 1 → b.isbn ≠ updFresh.isbn) ∧
    ((Book.fromCreate 1 updFresh).title = updFresh.title ∧
      (Book.fromCreate 1 updFresh).author = updFresh.author ∧
      (Book.fromCreate 1 updFresh).published_year = updFresh.published_year ∧
      (Book.fromCreate 1 updFresh).genre = updFresh.genre ∧
      (Book.fromCreate 1 updFresh).isbn = updFresh.isbn ∧
      (update_book 1 updFresh twoBookDB).1 = Res.ok (Book.fromCreate 1 updFresh) ∧
      get_book 1 (update_book 1 updFresh twoBookDB).2 =
        (Res.ok (Book.fromCreate 1 updFresh), (update_book 1 updFresh twoBookDB).2)) :=
  ⟨by decide, by decide, by decide, by decide,
    (c3_put_full_replacement 1 updFresh twoBookDB (by decide)).2
      bkA (by decide) (by decide) (by decide)⟩

/-- Witness for C4: deleting book 1 of `twoBookDB`. -/
theorem c4_delete_then_gone_witness :
    (∃ b ∈ twoBookDB.books, b.id = 1) ∧
    (∃ db' : DB,
      delete_book 1 twoBookDB =
        (Res.ok ("Book with ID " ++ toString (1 : Int) ++ " deleted"), db') ∧
      (∀ b ∈ db'.books, b.id ≠ 1) ∧
      get_book 1 db' = (Res.httpError 404 "Book not found", db') ∧
      delete_book 1 db' = (Res.httpError 404 "Book not found", db')) :=
  ⟨by decide, c4_delete_then_gone 1 twoBookDB (by decide)⟩

/-- Witness for C5: inserting `dupIsbnCreate`, whose isbn duplicates
`bkA`, into `twoBookDB`. -/
theorem c5_isbn_unique_witness :
    WF twoBookDB ∧ bkA ∈ twoBookDB.books ∧ dupIsbnCreate.isbn = bkA.isbn ∧
    (create_book dupIsbnCreate twoBookDB = (Res.dbError "IntegrityError", twoBookDB) ∧
      get_book bkA.id twoBookDB = (Res.ok bkA, twoBookDB)) :=
  ⟨by decide, by decide, by decide,
    c5_isbn_unique twoBookDB bkA dupIsbnCreate (by decide) (by decide) (by decide)⟩

/-- Witness for C6 (amended): a body missing its title is rejected on both
POST and PUT with the state untouched. -/
theorem c6_title_author_present_text_witness :
    (asStr noTitleBody.title = none ∨ asStr noTitleBody.author = none) ∧
    (post_books noTitleBody emptyDB = (Res.validationError, emptyDB) ∧
      put_books 1 noTitleBody emptyDB = (Res.validationError, emptyDB)) :=
  ⟨Or.inl (by decide),
    (c6_title_author_present_text noTitleBody emptyDB 1).1 (Or.inl (by decide))⟩

/-- Witness for C7: the body missing its title fails validation and both
routes answer with the client error, leaving the state untouched. -/
theorem c7_shape_validation_witness :
    BookCreate.validate noTitleBody = none ∧
    (post_books noTitleBody emptyDB = (Res.validationError, emptyDB) ∧
      put_books 5 noTitleBody emptyDB = (Res.validationError, emptyDB)) :=
  ⟨by decide, (c7_shape_validation noTitleBody 5 emptyDB).1 (by decide)⟩

/-- Witness for C9: updating and deleting book 1 of `twoBookDB` leaves the
other record `bkB` present and unchanged. -/
theorem c9_frame_witness :
    bkB ∈ twoBookDB.books ∧ bkB.id ≠ 1 ∧
    bkB ∈ (update_book 1 updFresh twoBookDB).2.books ∧
    bkB ∈ (delete_book 1 twoBookDB).2.books :=
  ⟨by decide, by decide,
    (c9_frame twoBookDB updFresh 1 updFresh).2.1 bkB (by decide) (by decide),
    (c9_frame twoBookDB updFresh 1 updFresh).2.2.1 bkB (by decide) (by decide)⟩

/-- Witness for C10: updating `bkA` of `twoBookDB` to carry `bkB`'s isbn
is rejected by the storage layer as an unhandled error. -/
theorem c10_put_isbn_collision_witness :
    WF twoBookDB ∧ bkA ∈ twoBookDB.books ∧ bkB ∈ twoBookDB.books ∧
    bkA.id ≠ bkB.id ∧ updToDupIsbn.isbn = bkB.isbn ∧
    update_book bkA.id updToDupIsbn twoBookDB =
      (Res.dbError "IntegrityError", twoBookDB) :=
  ⟨by decide, by decide, by decide, by decide, by decide,
    c10_put_isbn_collision twoBookDB bkA bkB updToDupIsbn
      (by decide) (by decide) (by decide) (by decide) (by decide)⟩

end BookMgmt
